import Mathlib

/-! Shallow embedding of the bovid-19 data pipeline (src/app.py): the
RegionFilter / AgeCohortAggregator (age_by_state) / CountyJoinEngine
(deaths_by_county) components, with pandas and numpy operations modelled
over lists of typed rows and rational numbers.
-/

namespace Bovid

/-- Substring test over character lists: does the haystack start with the needle. -/
def startsWithChars : List Char → List Char → Bool
  | [], _ => true
  | _ :: _, [] => false
  | a :: as, b :: bs => a == b && startsWithChars as bs

/-- Substring containment over character lists, scanning every suffix. -/
def hasSubChars (needle : List Char) : List Char → Bool
  | [] => needle.isEmpty
  | b :: bs => startsWithChars needle (b :: bs) || hasSubChars needle bs

/-- Models the pandas str.contains test (with a literal pattern): true iff
the needle occurs as a contiguous substring of the haystack. -/
def strContains (hay needle : String) : Bool :=
  hasSubChars needle.data hay.data

/-- Helper for uniqueFirst: keeps each value the first time it is met,
carrying the set of values already seen. -/
def uniqueFirstAux (seen : List String) : List String → List String
  | [] => []
  | a :: l =>
    if seen.contains a then uniqueFirstAux seen l
    else a :: uniqueFirstAux (a :: seen) l

/-- Models pandas Series.unique: the distinct values in order of first appearance. -/
def uniqueFirst (l : List String) : List String := uniqueFirstAux [] l

/-- Models the Python builtin max over a nonempty list of floats, here rationals;
the empty-list value 0 is never used on the success path (max of an empty list
raises in Python, and the model errors out before reaching it). -/
def pymax : List ℚ → ℚ
  | [] => 0
  | a :: as => as.foldl max a

/-- Models numpy.median over rationals: sort ascending, take the middle element
for odd length, the mean of the two middle elements for even length. -/
def npMedian (l : List ℚ) : ℚ :=
  let s := List.insertionSort (· ≤ ·) l
  if s.length % 2 = 1 then s.getD (s.length / 2) 0
  else (s.getD (s.length / 2 - 1) 0 + s.getD (s.length / 2) 0) / 2

/-- Strict lexicographic order on character lists by Unicode code point,
the order Python uses to compare strings and pandas uses to sort
string group keys. -/
def pyCharListLt : List Char → List Char → Bool
  | [], [] => false
  | [], _ :: _ => true
  | _ :: _, [] => false
  | a :: as, b :: bs =>
    if a.toNat < b.toNat then true
    else if b.toNat < a.toNat then false
    else pyCharListLt as bs

/-- Non-strict string comparison derived from the strict one. -/
def pyStrLe (a b : String) : Bool := !(pyCharListLt b.data a.data)

/-- The sort relation used to model the pandas groupby key ordering. -/
def pyLe (a b : String) : Prop := pyStrLe a b = true

instance pyLeDecidable : DecidableRel pyLe := fun a b => by
  unfold pyLe; infer_instance

/-- Models the sorted group-key order of pandas groupby with sort enabled. -/
def pySortStr (l : List String) : List String := List.insertionSort pyLe l

/-- Models str.lower, mapping every character to lower case. -/
def strLower (s : String) : String := ⟨s.data.map Char.toLower⟩

/-! Section: Data model

Typed rows for the two tabular datasets of src/app.py, plus the static
county geometry reference (bokeh us_counties) and the code-to-name
region mapping (state_mapping). A frame couples its rows with the list
of column labels actually present, because pandas raises KeyError when
a label is selected that the frame does not carry. -/

/-- One row of the per-state weekly mortality dataset, after parsing.
Numeric figures are optional because a cell may be empty (NaN); the
figures are death counts, integral in the dataset, and summation of
integral values is exact, so they are embedded as integers. -/
structure StateRow where
  state : String
  sex : String
  age_group : String
  covid_19_deaths : Option ℤ
  total_deaths : Option ℤ
  pneumonia_deaths : Option ℤ
  pneumonia_and_covid_19_deaths : Option ℤ
  influenza_deaths : Option ℤ
  pneumonia_influenza_or_covid : Option ℤ
deriving DecidableEq, Repr

/-- The per-state frame: column labels present, plus the parsed rows. -/
structure StateFrame where
  cols : List String
  rows : List StateRow
deriving DecidableEq, Repr

/-- One row of the per-county mortality dataset. The death count may be
missing in a cell (NaN), hence optional. -/
structure CountyRow where
  state_name : String
  county_name : String
  covid_death : Option ℚ
deriving DecidableEq, Repr

/-- The per-county frame: column labels present, plus the parsed rows. -/
structure CountyFrame where
  cols : List String
  rows : List CountyRow
deriving DecidableEq, Repr

/-- One entry of the static county geometry reference (bokeh us_counties):
a lowercase region code, a display name, a free-text detailed name whose
text before the first comma is the join key, and the polygon coordinates. -/
structure GeoEntry where
  state : String
  name : String
  detailed_name : String
  lats : List ℚ
  lons : List ℚ
deriving DecidableEq, Repr

/-- The render-ready choropleth payload assembled on the success path of
deaths_by_county: the parallel coordinate, name and rate sequences fed to
the patch renderer, the color mapper domain, and the figure title. -/
structure Choropleth where
  xs : List (List ℚ)
  ys : List (List ℚ)
  names : List String
  rates : List ℚ
  low : ℚ
  high : ℚ
  title : String
deriving DecidableEq, Repr

/-- The observable result of deaths_by_county: either the plot payload, or
the uniform pair of None values produced by the catch-all handler. -/
inductive DBCResult where
  | plot (c : Choropleth)
  | nonePair
deriving DecidableEq, Repr

/-- The eleven canonical age buckets of src/app.py. -/
def AGE_GROUPS : List String :=
  ["Under 1 year", "1-4 years", "5-14 years", "15-24 years",
   "25-34 years", "35-44 years", "45-54 years", "55-64 years",
   "65-74 years", "75-84 years", "85 years and over"]

/-- The date columns dropped inside deaths_by_county. -/
def DATE_COLS : List String := ["data_as_of", "start_week", "end_week"]

/-! Section: CountyJoinEngine: deaths_by_county -/

/-- Models the dict comprehension over state_mapping followed by
filter_state: the first mapping entry whose display name equals the
target, or none when no entry matches. -/
def resolveCode (mapping : List (String × String)) (state : String) :
    Option (String × String) :=
  mapping.find? (fun p => p.2 == state)

/-- Models data[data.state_name == state_code]: the mortality rows of the
resolved region. -/
def dfStateOf (cf : CountyFrame) (state_code : String) : List CountyRow :=
  cf.rows.filter (fun r => r.state_name == state_code)

/-- Models detailed_name.split on comma, first piece: the canonical county
join key of a geometry entry. -/
def countyKeyOf (g : GeoEntry) : String :=
  ⟨g.detailed_name.data.takeWhile (fun c => !(c == ','))⟩

/-- Models the comprehension keeping geometry entries whose region code
equals the lowercased resolved code. -/
def geoFilteredOf (geo : List GeoEntry) (state_code : String) : List GeoEntry :=
  geo.filter (fun g => g.state == strLower state_code)

/-- The mortality rows joining to a given geometry entry. -/
def matchesFor (dfState : List CountyRow) (g : GeoEntry) : List CountyRow :=
  dfState.filter (fun m => m.county_name == countyKeyOf g)

/-- The joined rows one geometry entry contributes: one output row per
matching mortality row, or a single row with missing mortality fields when
no mortality row matches. -/
def rowsForGeo (dfState : List CountyRow) (g : GeoEntry) :
    List (Option CountyRow × GeoEntry) :=
  match matchesFor dfState g with
  | [] => [(none, g)]
  | m :: ms => (m :: ms).map (fun r => (some r, g))

/-- Models pd.merge with the geometry frame on the right and how set to
right: the contributions of the geometry rows in geometry order. -/
def joinRowsOf (dfState : List CountyRow) (geoF : List GeoEntry) :
    List (Option CountyRow × GeoEntry) :=
  geoF.flatMap (rowsForGeo dfState)

/-- Models fillna with 0 followed by astype float on the covid_death
column: unmatched rows and missing cells both become 0. -/
def rateOfRow : Option CountyRow × GeoEntry → ℚ
  | (some m, _) => (m.covid_death).getD 0
  | (none, _) => 0

/-- Assembles the choropleth payload from the joined rows: the parallel
sequences, the color domain low = median and high = max of the rates, and
the title built from the region display name. -/
def choroplethOf (dfState : List CountyRow) (geoF : List GeoEntry)
    (state_name : String) : Choropleth :=
  { xs := (joinRowsOf dfState geoF).map (fun r => r.2.lons)
    ys := (joinRowsOf dfState geoF).map (fun r => r.2.lats)
    names := (joinRowsOf dfState geoF).map (fun r => r.2.name)
    rates := (joinRowsOf dfState geoF).map rateOfRow
    low := npMedian ((joinRowsOf dfState geoF).map rateOfRow)
    high := pymax ((joinRowsOf dfState geoF).map rateOfRow)
    title := state_name ++ " - Covid Deaths" }

/-- The body of the try block of deaths_by_county, with each Python
exception site modelled as an error outcome, in the order the statements
execute: unpacking the reverse lookup, selecting the state_name column,
dropping the date columns, indexing detailed_name on the geometry frame
built from the filtered geometry (KeyError when that frame is empty,
since an empty dict yields a frame with no columns), merging on
county_name, and reading the covid_death attribute. -/
def deathsByCountyBody (cf : CountyFrame) (geo : List GeoEntry)
    (mapping : List (String × String)) (state : String) :
    Except String Choropleth :=
  match resolveCode mapping state with
  | none => Except.error "TypeError: cannot unpack NoneType"
  | some (state_code, state_name) =>
    if "state_name" ∈ cf.cols then
      if ∀ c ∈ DATE_COLS, c ∈ cf.cols then
        if geoFilteredOf geo state_code = [] then
          Except.error "KeyError: detailed name"
        else
          if "county_name" ∈ cf.cols then
            if "covid_death" ∈ cf.cols then
              Except.ok (choroplethOf (dfStateOf cf state_code)
                (geoFilteredOf geo state_code) state_name)
            else Except.error "AttributeError: covid_death"
          else Except.error "KeyError: county_name"
      else Except.error "KeyError: date columns"
    else Except.error "KeyError: state_name"

/-- Models deaths_by_county: the try body wrapped by the catch-all except
clause that turns every failure into the pair of None values. -/
def deaths_by_county (cf : CountyFrame) (geo : List GeoEntry)
    (mapping : List (String × String)) (state : String) : DBCResult :=
  match deathsByCountyBody cf geo mapping state with
  | Except.ok p => DBCResult.plot p
  | Except.error _ => DBCResult.nonePair

/-! Section: AgeCohortAggregator: age_by_state -/

/-- The six summed figures of one cohort row of the groupby table. -/
structure Figures where
  covid_19_deaths : ℤ
  total_deaths : ℤ
  pneumonia_deaths : ℤ
  pneumonia_and_covid_19_deaths : ℤ
  influenza_deaths : ℤ
  pneumonia_influenza_or_covid : ℤ
deriving DecidableEq, Repr

/-- The state rows for the target region restricted to canonical age
buckets, in their original order: models the two filters of age_by_state. -/
def ageFiltered (rows : List StateRow) (state : String) : List StateRow :=
  (rows.filter (fun r => r.state == state)).filter
    (fun r => AGE_GROUPS.contains r.age_group)

/-- The age-group labels of the filtered rows, in row order. -/
def cohortLabels (rows : List StateRow) (state : String) : List String :=
  (ageFiltered rows state).map (fun r => r.age_group)

/-- The filtered rows of one cohort. -/
def filteredCohort (rows : List StateRow) (state : String) (cohort : String) :
    List StateRow :=
  (ageFiltered rows state).filter (fun r => r.age_group == cohort)

/-- Sum of one optional figure over rows, with missing cells as 0: models
the pandas sum that skips NaN. -/
def sumBy (l : List StateRow) (f : StateRow → Option ℤ) : ℤ :=
  (l.map (fun r => (f r).getD 0)).sum

/-- The six groupby sums of one cohort. -/
def cohortSums (rows : List StateRow) (state : String) (cohort : String) :
    Figures :=
  { covid_19_deaths := sumBy (filteredCohort rows state cohort) (fun r => r.covid_19_deaths)
    total_deaths := sumBy (filteredCohort rows state cohort) (fun r => r.total_deaths)
    pneumonia_deaths := sumBy (filteredCohort rows state cohort) (fun r => r.pneumonia_deaths)
    pneumonia_and_covid_19_deaths := sumBy (filteredCohort rows state cohort) (fun r => r.pneumonia_and_covid_19_deaths)
    influenza_deaths := sumBy (filteredCohort rows state cohort) (fun r => r.influenza_deaths)
    pneumonia_influenza_or_covid := sumBy (filteredCohort rows state cohort) (fun r => r.pneumonia_influenza_or_covid) }

/-- The two data artifacts of age_by_state: the x-range cohort array
(Series.unique, first-appearance order) and the groupby table (its key
order is the pandas default sorted order). -/
structure AgeResult where
  xRange : List String
  table : List (String × Figures)
deriving DecidableEq, Repr

/-- Models age_by_state as far as its data artifacts go: filter to the
region, keep canonical buckets, take the unique cohort labels for the
x-range, and group with sorted keys, summing the six figures. -/
def age_by_state (rows : List StateRow) (state : String) : AgeResult :=
  { xRange := uniqueFirst (cohortLabels rows state)
    table := (pySortStr (uniqueFirst (cohortLabels rows state))).map
      (fun k => (k, cohortSums rows state k)) }

/-! Section: RegionFilter and the orchestrating route -/

/-- Models the rollup drop of the index route: selecting the state column
raises KeyError when it is absent, otherwise the rows whose region field
contains the substring Total are dropped in place. -/
def regionFilterE (sf : StateFrame) : Except String (List StateRow) :=
  if "state" ∈ sf.cols then
    Except.ok (sf.rows.filter (fun r => !(strContains r.state "Total")))
  else Except.error "KeyError: state"

/-- Models the selectable region list exposed to the template: the state
column values of the cleaned frame with the New York City pseudo-region
filtered out. -/
def selectableStates (cleaned : List StateRow) : List String :=
  (cleaned.map (fun r => r.state)).filter (fun s => !(s == "New York City"))

/-- The three artifacts the index route hands to the template. -/
structure IndexResult where
  age : AgeResult
  county : DBCResult
  states : List String
deriving DecidableEq, Repr

/-- Models the index route on one request: clean the state frame (fatal on
a missing state column), run both aggregators, and build the selectable
region list. -/
def indexModel (sf : StateFrame) (cf : CountyFrame) (geo : List GeoEntry)
    (mapping : List (String × String)) (target : String) :
    Except String IndexResult :=
  match regionFilterE sf with
  | Except.error e => Except.error e
  | Except.ok cleaned =>
    Except.ok
      { age := age_by_state cleaned target
        county := deaths_by_county cf geo mapping target
        states := selectableStates cleaned }

/-! Section: Concrete scenario data -/

/-- A small region mapping with two entries, as in state_mapping. -/
def scenarioMap : List (String × String) := [("NY", "New York"), ("OH", "Ohio")]

/-- A geometry entry whose canonical county name matches the scenario
mortality record. -/
def adamsGeo : GeoEntry :=
  { state := "oh", name := "Adams", detailed_name := "Adams County, Ohio",
    lats := [1], lons := [2] }

/-- A geometry entry with no matching mortality record. -/
def allenGeo : GeoEntry :=
  { state := "oh", name := "Allen", detailed_name := "Allen County, Ohio",
    lats := [3], lons := [4] }

/-- Another geometry entry with no matching mortality record. -/
def ashlandGeo : GeoEntry :=
  { state := "oh", name := "Ashland", detailed_name := "Ashland County, Ohio",
    lats := [5], lons := [6] }

/-- Three geometry entries for the region with code OH. -/
def scenarioGeo : List GeoEntry := [adamsGeo, allenGeo, ashlandGeo]

/-- The column labels the county mortality dataset carries. -/
def countyCols : List String :=
  ["data_as_of", "start_week", "end_week", "state_name", "county_name",
   "covid_death"]

/-- A county frame with a single mortality record, count 5, matching the
first geometry entry. -/
def scenarioCF : CountyFrame :=
  { cols := countyCols
    rows := [{ state_name := "OH", county_name := "Adams County",
               covid_death := some 5 }] }

/-- A county frame with two mortality records for the same county name,
exercising the one-to-many side of the right join. -/
def dupCF : CountyFrame :=
  { cols := countyCols
    rows := [{ state_name := "OH", county_name := "Adams County",
               covid_death := some 5 },
             { state_name := "OH", county_name := "Adams County",
               covid_death := some 3 }] }

/-- A geometry reference holding a single entry for code OH. -/
def dupGeo : List GeoEntry := [adamsGeo]

/-- The choropleth of the duplicate-record scenario. -/
def dupChoro : Choropleth :=
  choroplethOf (dfStateOf dupCF "OH") (geoFilteredOf dupGeo "OH") "Ohio"

/-- Builds a state mortality row with a covid count and all other figures
missing. -/
def mkStateRow (st ag : String) (covid : ℤ) : StateRow :=
  { state := st, sex := "All Sexes", age_group := ag
    covid_19_deaths := some covid, total_deaths := none
    pneumonia_deaths := none, pneumonia_and_covid_19_deaths := none
    influenza_deaths := none, pneumonia_influenza_or_covid := none }

/-- The cohort-order scenario rows: Under 1 year first, then 25-34 years. -/
def scenarioStateRows : List StateRow :=
  [mkStateRow "New York" "Under 1 year" 2,
   mkStateRow "New York" "25-34 years" 10]

/-- The same two rows in the opposite order. -/
def scenarioStateRowsRev : List StateRow :=
  [mkStateRow "New York" "25-34 years" 10,
   mkStateRow "New York" "Under 1 year" 2]

/-- The cohort figures of the 25-34 years scenario cohort. -/
def figs10 : Figures := ⟨10, 0, 0, 0, 0, 0⟩

/-- A state frame carrying the state column, with one real region row and
one rollup row. -/
def cleanFrame : StateFrame :=
  { cols := ["state", "sex", "age_group"]
    rows := [mkStateRow "New York" "Under 1 year" 2,
             mkStateRow "New York Total" "Under 1 year" 3] }

/-- A state frame missing the state column entirely. -/
def noStateFrame : StateFrame :=
  { cols := ["sex", "age_group"], rows := [] }

/-- The choropleth the success scenario produces. -/
def scenChoro : Choropleth :=
  choroplethOf (dfStateOf scenarioCF "OH") (geoFilteredOf scenarioGeo "OH") "Ohio"

/-! Section: Helper lemmas -/

theorem pyCharListLt_irrefl : ∀ a : List Char, pyCharListLt a a = false
  | [] => rfl
  | a :: as => by
    simp only [pyCharListLt, Nat.lt_irrefl, if_false]
    exact pyCharListLt_irrefl as

theorem pyCharListLt_trans :
    ∀ a b c : List Char, pyCharListLt a b = true → pyCharListLt b c = true →
      pyCharListLt a c = true
  | [], [], _, h1, _ => by simp [pyCharListLt] at h1
  | [], _ :: _, [], _, h2 => by simp [pyCharListLt] at h2
  | [], _ :: _, _ :: _, _, _ => rfl
  | _ :: _, [], _, h1, _ => by simp [pyCharListLt] at h1
  | _ :: _, _ :: _, [], _, h2 => by simp [pyCharListLt] at h2
  | a :: as, b :: bs, c :: cs, h1, h2 => by
    simp only [pyCharListLt] at h1 h2 ⊢
    by_cases hab : a.toNat < b.toNat
    · by_cases hbc : b.toNat < c.toNat
      · rw [if_pos (Nat.lt_trans hab hbc)]
      · by_cases hcb : c.toNat < b.toNat
        · rw [if_neg hbc, if_pos hcb] at h2; simp at h2
        · rw [if_pos (by omega : a.toNat < c.toNat)]
    · by_cases hba : b.toNat < a.toNat
      · rw [if_neg hab, if_pos hba] at h1; simp at h1
      · rw [if_neg hab, if_neg hba] at h1
        by_cases hbc : b.toNat < c.toNat
        · rw [if_pos (by omega : a.toNat < c.toNat)]
        · by_cases hcb : c.toNat < b.toNat
          · rw [if_neg hbc, if_pos hcb] at h2; simp at h2
          · rw [if_neg hbc, if_neg hcb] at h2
            rw [if_neg (by omega : ¬ a.toNat < c.toNat),
                if_neg (by omega : ¬ c.toNat < a.toNat)]
            exact pyCharListLt_trans as bs cs h1 h2

theorem pyCharListLt_conn :
    ∀ a b : List Char, pyCharListLt a b = false → pyCharListLt b a = false → a = b
  | [], [], _, _ => rfl
  | [], _ :: _, h1, _ => by simp [pyCharListLt] at h1
  | _ :: _, [], _, h2 => by simp [pyCharListLt] at h2
  | a :: as, b :: bs, h1, h2 => by
    simp only [pyCharListLt] at h1 h2
    by_cases hab : a.toNat < b.toNat
    · rw [if_pos hab] at h1; simp at h1
    · by_cases hba : b.toNat < a.toNat
      · rw [if_pos hba] at h2; simp at h2
      · rw [if_neg hab, if_neg hba] at h1
        rw [if_neg hba, if_neg hab] at h2
        have hn : a.toNat = b.toNat := by omega
        have hval : a = b := Char.eq_of_val_eq (UInt32.ext hn)
        subst hval
        rw [pyCharListLt_conn as bs h1 h2]

instance pyLeTotal : IsTotal String pyLe := by
  constructor
  intro a b
  unfold pyLe pyStrLe
  by_cases h : pyCharListLt b.data a.data = true
  · right
    have : pyCharListLt a.data b.data = false := by
      by_contra hc
      simp only [Bool.not_eq_false] at hc
      have := pyCharListLt_trans _ _ _ h hc
      rw [pyCharListLt_irrefl] at this
      cases this
    simp [this]
  · left
    simp only [Bool.not_eq_true] at h
    simp [h]

instance pyLeTrans : IsTrans String pyLe := by
  constructor
  intro a b c h1 h2
  unfold pyLe pyStrLe at h1 h2 ⊢
  simp only [Bool.not_eq_true'] at h1 h2 ⊢
  by_contra hc
  simp only [Bool.not_eq_false] at hc
  by_cases hab : pyCharListLt a.data b.data = true
  · have := pyCharListLt_trans _ _ _ hc hab
    rw [this] at h2; cases h2
  · have heq : a.data = b.data :=
      pyCharListLt_conn _ _ (by simpa using hab) h1
    rw [heq] at hc
    rw [hc] at h2; cases h2

theorem foldl_max_ge_init : ∀ (as : List ℚ) (a : ℚ), a ≤ as.foldl max a
  | [], a => le_refl a
  | b :: bs, a =>
    le_trans (le_max_left a b) (foldl_max_ge_init bs (max a b))

theorem foldl_max_ge_mem :
    ∀ (as : List ℚ) (a x : ℚ), x ∈ as → x ≤ as.foldl max a
  | [], _, x, hx => absurd hx (List.not_mem_nil x)
  | b :: bs, a, x, hx => by
    simp only [List.foldl_cons]
    rcases List.mem_cons.mp hx with h | h
    · subst h
      exact le_trans (le_max_right a x) (foldl_max_ge_init bs _)
    · exact foldl_max_ge_mem bs _ x h

/-- Every element of a list is bounded by its pymax. -/
theorem le_pymax_of_mem {l : List ℚ} {x : ℚ} (hx : x ∈ l) : x ≤ pymax l := by
  cases l with
  | nil => exact absurd hx (List.not_mem_nil x)
  | cons a as =>
    simp only [pymax]
    rcases List.mem_cons.mp hx with h | h
    · subst h; exact foldl_max_ge_init as x
    · exact foldl_max_ge_mem as a x h

theorem getD_mem_of_lt {l : List ℚ} {i : ℕ} (h : i < l.length) (d : ℚ) :
    l.getD i d ∈ l := by
  rw [List.getD_eq_getElem?_getD, List.getElem?_eq_getElem h]
  exact List.getElem_mem h

/-- The numpy median of a nonempty list never exceeds its Python max. -/
theorem npMedian_le_pymax (l : List ℚ) (h : l ≠ []) : npMedian l ≤ pymax l := by
  have hperm := List.perm_insertionSort (α := ℚ) (· ≤ ·) l
  have hlen : (List.insertionSort (α := ℚ) (· ≤ ·) l).length = l.length :=
    hperm.length_eq
  have hpos : 0 < (List.insertionSort (α := ℚ) (· ≤ ·) l).length := by
    rw [hlen]; exact List.length_pos.mpr h
  simp only [npMedian]
  split
  · exact le_pymax_of_mem (hperm.mem_iff.mp
      (getD_mem_of_lt (Nat.div_lt_self hpos (by norm_num)) 0))
  · have h1 : (List.insertionSort (α := ℚ) (· ≤ ·) l).length / 2 - 1
        < (List.insertionSort (α := ℚ) (· ≤ ·) l).length :=
      Nat.lt_of_le_of_lt (Nat.sub_le _ _) (Nat.div_lt_self hpos (by norm_num))
    have h2 : (List.insertionSort (α := ℚ) (· ≤ ·) l).length / 2
        < (List.insertionSort (α := ℚ) (· ≤ ·) l).length :=
      Nat.div_lt_self hpos (by norm_num)
    have hx := le_pymax_of_mem (hperm.mem_iff.mp (getD_mem_of_lt h1 0))
    have hy := le_pymax_of_mem (hperm.mem_iff.mp (getD_mem_of_lt h2 0))
    linarith

/-- At least one joined row is emitted for every filtered geometry entry. -/
theorem exists_joinRow_of_mem {d : List CountyRow} {geoF : List GeoEntry}
    {g : GeoEntry} (hg : g ∈ geoF) : ∃ o, (o, g) ∈ joinRowsOf d geoF := by
  unfold joinRowsOf
  cases hm : matchesFor d g with
  | nil => exact ⟨none, List.mem_flatMap.mpr ⟨g, hg, by simp [rowsForGeo, hm]⟩⟩
  | cons m ms =>
    exact ⟨some m, List.mem_flatMap.mpr ⟨g, hg, by
      simp only [rowsForGeo, hm]
      exact List.mem_map.mpr ⟨m, List.mem_cons_self m ms, rfl⟩⟩⟩

/-- A geometry entry with no mortality match contributes the null-filled
joined row. -/
theorem none_joinRow_of_unmatched {d : List CountyRow} {geoF : List GeoEntry}
    {g : GeoEntry} (hg : g ∈ geoF) (hm : matchesFor d g = []) :
    (none, g) ∈ joinRowsOf d geoF := by
  unfold joinRowsOf
  exact List.mem_flatMap.mpr ⟨g, hg, by simp [rowsForGeo, hm]⟩

/-- One geometry entry contributes one row when unmatched and one row per
match otherwise. -/
theorem rowsForGeo_length (d : List CountyRow) (g : GeoEntry) :
    (rowsForGeo d g).length = max 1 (matchesFor d g).length := by
  cases hm : matchesFor d g with
  | nil => simp [rowsForGeo, hm]
  | cons m ms =>
    simp [rowsForGeo, hm, Nat.max_eq_right (Nat.succ_le_succ (Nat.zero_le _))]

/-- The length of the joined row list: the sum of the per-geometry-entry
contributions. -/
theorem joinRowsOf_length (d : List CountyRow) :
    ∀ geoF : List GeoEntry,
      (joinRowsOf d geoF).length
        = (geoF.map (fun g => max 1 (matchesFor d g).length)).sum
  | [] => rfl
  | g :: t => by
    simp only [joinRowsOf, List.flatMap_cons, List.length_append,
      List.map_cons, List.sum_cons]
    have ht := joinRowsOf_length d t
    simp only [joinRowsOf] at ht
    rw [ht, rowsForGeo_length]

/-- The joined row list is nonempty whenever some geometry entry survives
the region filter. -/
theorem joinRowsOf_ne_nil {d : List CountyRow} {geoF : List GeoEntry}
    (h : geoF ≠ []) : joinRowsOf d geoF ≠ [] := by
  cases geoF with
  | nil => exact absurd rfl h
  | cons g t =>
    intro hc
    obtain ⟨o, ho⟩ := exists_joinRow_of_mem (d := d) (List.mem_cons_self g t)
    rw [hc] at ho
    exact absurd ho (List.not_mem_nil _)

/-- Anatomy of a successful deaths_by_county body: the region resolved, the
filtered geometry is nonempty, every accessed column is present, and the
value is the assembled choropleth. -/
theorem body_ok_cases {cf : CountyFrame} {geo : List GeoEntry}
    {mapping : List (String × String)} {state : String} {c : Choropleth}
    (h : deathsByCountyBody cf geo mapping state = Except.ok c) :
    ∃ state_code state_name,
      resolveCode mapping state = some (state_code, state_name) ∧
      geoFilteredOf geo state_code ≠ [] ∧
      "state_name" ∈ cf.cols ∧ (∀ x ∈ DATE_COLS, x ∈ cf.cols) ∧
      "county_name" ∈ cf.cols ∧ "covid_death" ∈ cf.cols ∧
      c = choroplethOf (dfStateOf cf state_code) (geoFilteredOf geo state_code)
            state_name := by
  unfold deathsByCountyBody at h
  split at h
  · exact Except.noConfusion h
  · next state_code state_name heq =>
    split_ifs at h with h1 h2 h3 h4 h5
    · injection h with h'
      exact ⟨state_code, state_name, heq, h3, h1, h2, h4, h5, h'.symm⟩

/-- Summing a figure over a list of rows is invariant under permutation. -/
theorem sumBy_congr (f : StateRow → Option ℤ) {l1 l2 : List StateRow}
    (hp : l1.Perm l2) : sumBy l1 f = sumBy l2 f :=
  (hp.map _).sum_eq

/-! Section: Claims -/

/-- C6: on every input state dataset on which RegionFilter succeeds, no
record of the cleaned dataset has a region field containing the substring
Total, and the surviving records keep their original relative order (the
output is a sublist of the input rows). -/
theorem C6_region_filter_invariant {sf : StateFrame} {out : List StateRow}
    (h : regionFilterE sf = Except.ok out) :
    (∀ r ∈ out, strContains r.state "Total" = false) ∧
    List.Sublist out sf.rows := by
  unfold regionFilterE at h
  split_ifs at h with hcol
  · injection h with h'
    subst h'
    constructor
    · intro r hr
      have hm := List.mem_filter.mp hr
      simpa using hm.2
    · exact List.filter_sublist sf.rows

/-- Witness for C6 on a concrete frame with one real row and one rollup
row: the rollup row is dropped, the real row survives in order. -/
theorem C6_region_filter_invariant_witness :
    (∀ r ∈ [mkStateRow "New York" "Under 1 year" 2],
      strContains r.state "Total" = false) ∧
    List.Sublist [mkStateRow "New York" "Under 1 year" 2] cleanFrame.rows :=
  @C6_region_filter_invariant cleanFrame [mkStateRow "New York" "Under 1 year" 2] rfl

/-- C7: AgeCohortAggregator is order-independent: on permuted input
records the six summed figures of every cohort are identical. -/
theorem C7_aggregation_order_independent {rows1 rows2 : List StateRow}
    (h : rows1.Perm rows2) (state cohort : String) :
    cohortSums rows1 state cohort = cohortSums rows2 state cohort := by
  have hp : (filteredCohort rows1 state cohort).Perm
      (filteredCohort rows2 state cohort) := by
    simp only [filteredCohort, ageFiltered]
    exact ((h.filter _).filter _).filter _
  simp only [cohortSums]
  rw [sumBy_congr _ hp, sumBy_congr _ hp, sumBy_congr _ hp, sumBy_congr _ hp,
      sumBy_congr _ hp, sumBy_congr _ hp]

/-- Witness for C7: swapping the two scenario rows leaves the summed
figures of the Under 1 year cohort unchanged. -/
theorem C7_aggregation_order_independent_witness :
    scenarioStateRows.Perm scenarioStateRowsRev ∧
    cohortSums scenarioStateRows "New York" "Under 1 year"
      = cohortSums scenarioStateRowsRev "New York" "Under 1 year" :=
  ⟨by decide, C7_aggregation_order_independent (by decide) "New York" "Under 1 year"⟩

/-- C8: when the region field (the state column) is absent from the input
state dataset, RegionFilter raises rather than passing rows through, and
the whole route aborts with that error. -/
theorem C8_missing_region_field_fatal {sf : StateFrame}
    (h : "state" ∉ sf.cols) :
    regionFilterE sf = Except.error "KeyError: state" ∧
    ∀ (cf : CountyFrame) (geo : List GeoEntry)
      (mapping : List (String × String)) (target : String),
      indexModel sf cf geo mapping target = Except.error "KeyError: state" := by
  have hrf : regionFilterE sf = Except.error "KeyError: state" := by
    unfold regionFilterE
    rw [if_neg h]
  refine ⟨hrf, ?_⟩
  intro cf geo mapping target
  unfold indexModel
  rw [hrf]

/-- Witness for C8 on a frame missing the state column. -/
theorem C8_missing_region_field_fatal_witness :
    ("state" ∉ noStateFrame.cols) ∧
    regionFilterE noStateFrame = Except.error "KeyError: state" ∧
    indexModel noStateFrame scenarioCF scenarioGeo scenarioMap "Ohio"
      = Except.error "KeyError: state" :=
  ⟨by decide, (@C8_missing_region_field_fatal noStateFrame (by decide)).1,
    (@C8_missing_region_field_fatal noStateFrame (by decide)).2
      scenarioCF scenarioGeo scenarioMap "Ohio"⟩

/-- C9: for every cleaned state dataset, the selectable region list
exposed to callers never contains the New York City pseudo-region (the
capital-city style pseudo-region present in geometry data only as a
city). -/
theorem C9_pseudo_region_removed (cleaned : List StateRow) :
    (selectableStates cleaned).contains "New York City" = false := by
  have h : "New York City" ∉ selectableStates cleaned := by
    unfold selectableStates
    intro hmem
    have hm := List.mem_filter.mp hmem
    simp at hm
  exact Bool.eq_false_iff.mpr (fun hc => h (List.elem_iff.mp hc))

/-- C1: when no entry of the region mapping carries the target display
name, deaths_by_county returns the uniform nonePair result instead of
raising, and the selectable region list of the route is a function of the
state frame alone, hence unaffected by the failed county join. -/
theorem C1_region_not_found_uniform {cf : CountyFrame} {geo : List GeoEntry}
    {mapping : List (String × String)} {target : String}
    (h : ∀ p ∈ mapping, p.2 ≠ target) :
    deaths_by_county cf geo mapping target = DBCResult.nonePair ∧
    ∀ sf : StateFrame,
      (indexModel sf cf geo mapping target).map (fun r => r.states)
        = (regionFilterE sf).map selectableStates := by
  have hres : resolveCode mapping target = none := by
    unfold resolveCode
    rw [List.find?_eq_none]
    intro p hp
    simp [h p hp]
  constructor
  · unfold deaths_by_county deathsByCountyBody
    rw [hres]
  · intro sf
    cases hrf : regionFilterE sf <;> simp [indexModel, hrf, Except.map]

/-- Witness for C1: the name Nowhere maps to no code; the county join
yields nonePair and the region list equals the pure state-side value. -/
theorem C1_region_not_found_uniform_witness :
    (∀ p ∈ scenarioMap, p.2 ≠ "Nowhere") ∧
    deaths_by_county scenarioCF scenarioGeo scenarioMap "Nowhere"
      = DBCResult.nonePair ∧
    (indexModel cleanFrame scenarioCF scenarioGeo scenarioMap "Nowhere").map
        (fun r => r.states)
      = (regionFilterE cleanFrame).map selectableStates :=
  ⟨by decide,
    (@C1_region_not_found_uniform scenarioCF scenarioGeo scenarioMap "Nowhere"
      (by decide)).1,
    (@C1_region_not_found_uniform scenarioCF scenarioGeo scenarioMap "Nowhere"
      (by decide)).2 cleanFrame⟩

/-- C2: on every successful deaths_by_county invocation with a nonempty
emitted rate sequence, the color-scale low is the median of the rates, the
high is their maximum, and low never exceeds high. -/
theorem C2_color_scale_domain {cf : CountyFrame} {geo : List GeoEntry}
    {mapping : List (String × String)} {state : String} {c : Choropleth}
    (h : deathsByCountyBody cf geo mapping state = Except.ok c)
    (hne : c.rates ≠ []) :
    c.low = npMedian c.rates ∧ c.high = pymax c.rates ∧ c.low ≤ c.high := by
  obtain ⟨code, nm, -, -, -, -, -, -, hc⟩ := body_ok_cases h
  subst hc
  exact ⟨rfl, rfl, npMedian_le_pymax _ hne⟩

/-- Witness for C2 on the three-county scenario: low 0 equals the median,
high 5 equals the max, and low does not exceed high. -/
theorem C2_color_scale_domain_witness :
    deathsByCountyBody scenarioCF scenarioGeo scenarioMap "Ohio"
      = Except.ok scenChoro ∧
    scenChoro.rates ≠ [] ∧
    (scenChoro.low = npMedian scenChoro.rates ∧
     scenChoro.high = pymax scenChoro.rates ∧ scenChoro.low ≤ scenChoro.high) :=
  ⟨rfl, by decide,
    @C2_color_scale_domain scenarioCF scenarioGeo scenarioMap "Ohio" scenChoro
      rfl (by decide)⟩

/-- C3: on every successful deaths_by_county invocation, every filtered
geometry entry appears in the output, an unmatched one with rate exactly
0; and on the concrete scenario of three geometry counties with one
matching mortality record of count 5, the emitted rates are 5, 0, 0 in
geometry row order, with median 0 and max 5. -/
theorem C3_right_join_zero_fill :
    (∀ (cf : CountyFrame) (geo : List GeoEntry)
       (mapping : List (String × String))
       (state state_code state_name : String) (c : Choropleth),
       deathsByCountyBody cf geo mapping state = Except.ok c →
       resolveCode mapping state = some (state_code, state_name) →
       ∀ g ∈ geoFilteredOf geo state_code,
         g.name ∈ c.names ∧
         (matchesFor (dfStateOf cf state_code) g = [] →
           (g.name, (0 : ℚ)) ∈ c.names.zip c.rates)) ∧
    ((deathsByCountyBody scenarioCF scenarioGeo scenarioMap "Ohio").map
        (fun c => c.rates) = Except.ok [5, 0, 0] ∧
     npMedian [5, 0, 0] = 0 ∧ pymax [5, 0, 0] = 5) := by
  constructor
  · intro cf geo mapping state state_code state_name c h hres g hg
    obtain ⟨code', nm', hres', -, -, -, -, -, hc⟩ := body_ok_cases h
    rw [hres] at hres'
    injection hres' with hp
    injection hp with h1 h2
    subst h1; subst h2
    subst hc
    constructor
    · obtain ⟨o, ho⟩ := exists_joinRow_of_mem (d := dfStateOf cf state_code) hg
      simp only [choroplethOf]
      exact List.mem_map.mpr ⟨(o, g), ho, rfl⟩
    · intro hm
      have hrow := none_joinRow_of_unmatched hg hm
      simp only [choroplethOf]
      rw [List.zip_map']
      exact List.mem_map.mpr ⟨(none, g), hrow, rfl⟩
  · exact ⟨rfl, by decide, by decide⟩

/-- Witness for C3: in the scenario, the Allen entry has no mortality
match and appears in the choropleth with rate exactly 0. -/
theorem C3_right_join_zero_fill_witness :
    allenGeo ∈ geoFilteredOf scenarioGeo "OH" ∧
    matchesFor (dfStateOf scenarioCF "OH") allenGeo = [] ∧
    ("Allen", (0 : ℚ)) ∈ scenChoro.names.zip scenChoro.rates :=
  ⟨by decide, by decide,
    (C3_right_join_zero_fill.1 scenarioCF scenarioGeo scenarioMap "Ohio"
      "OH" "Ohio" scenChoro rfl rfl allenGeo (by decide)).2 (by decide)⟩

/-- C4 counterexample: with one geometry entry and two mortality records
sharing its county name, the invocation succeeds and all four output
sequences have length 2, while only 1 geometry entry matches the resolved
region, so the common length does not equal the geometry entry count. -/
theorem C4_join_length_counterexample :
    (deathsByCountyBody dupCF dupGeo scenarioMap "Ohio").map
        (fun c => (c.xs.length, c.ys.length, c.names.length, c.rates.length))
      = Except.ok (2, 2, 2, 2) ∧
    resolveCode scenarioMap "Ohio" = some ("OH", "Ohio") ∧
    (geoFilteredOf dupGeo "OH").length = 1 ∧
    (2 : ℕ) ≠ 1 :=
  ⟨rfl, by decide, by decide, by decide⟩

/-- C4 amended: on every successful deaths_by_county invocation the three
output sequences (and the rate sequence) have equal length; that common
length is the sum, over the geometry entries of the resolved region, of
the number of matching mortality records, counting one for an unmatched
entry; when every geometry entry matches at most one mortality record it
equals the number of geometry entries of the resolved region. -/
theorem C4_parallel_lengths_amended {cf : CountyFrame} {geo : List GeoEntry}
    {mapping : List (String × String)} {state state_code state_name : String}
    {c : Choropleth}
    (h : deathsByCountyBody cf geo mapping state = Except.ok c)
    (hres : resolveCode mapping state = some (state_code, state_name)) :
    (c.xs.length = c.rates.length ∧ c.ys.length = c.rates.length ∧
      c.names.length = c.rates.length) ∧
    c.rates.length = ((geoFilteredOf geo state_code).map
      (fun g => max 1 (matchesFor (dfStateOf cf state_code) g).length)).sum ∧
    ((∀ g ∈ geoFilteredOf geo state_code,
        (matchesFor (dfStateOf cf state_code) g).length ≤ 1) →
      c.rates.length = (geoFilteredOf geo state_code).length) := by
  obtain ⟨code', nm', hres', -, -, -, -, -, hc⟩ := body_ok_cases h
  rw [hres] at hres'
  injection hres' with hp
  injection hp with h1 h2
  subst h1; subst h2
  subst hc
  have hlen : (choroplethOf (dfStateOf cf state_code)
      (geoFilteredOf geo state_code) state_name).rates.length
      = ((geoFilteredOf geo state_code).map
        (fun g => max 1 (matchesFor (dfStateOf cf state_code) g).length)).sum := by
    simp only [choroplethOf]
    rw [List.length_map]
    exact joinRowsOf_length _ _
  refine ⟨⟨?_, ?_, ?_⟩, hlen, ?_⟩
  · simp only [choroplethOf, List.length_map]
  · simp only [choroplethOf, List.length_map]
  · simp only [choroplethOf, List.length_map]
  · intro hle
    rw [hlen]
    have hone : ∀ g ∈ geoFilteredOf geo state_code,
        max 1 (matchesFor (dfStateOf cf state_code) g).length = 1 :=
      fun g hg => Nat.max_eq_left (hle g hg)
    rw [List.map_congr_left hone]
    simp

/-- Witness for C4 amended on the duplicate-record scenario: the four
sequences share one length, the per-geometry sum of match counts. -/
theorem C4_parallel_lengths_amended_witness :
    (dupChoro.xs.length = dupChoro.rates.length ∧
     dupChoro.ys.length = dupChoro.rates.length ∧
     dupChoro.names.length = dupChoro.rates.length) ∧
    dupChoro.rates.length = ((geoFilteredOf dupGeo "OH").map
      (fun g => max 1 (matchesFor (dfStateOf dupCF "OH") g).length)).sum :=
  ⟨(@C4_parallel_lengths_amended dupCF dupGeo scenarioMap "Ohio" "OH" "Ohio"
      dupChoro rfl rfl).1,
   (@C4_parallel_lengths_amended dupCF dupGeo scenarioMap "Ohio" "OH" "Ohio"
      dupChoro rfl rfl).2.1⟩

/-- Mapping first projection over a keyed table recovers the key list. -/
theorem map_fst_keyed (f : String → Figures) :
    ∀ l : List String, ((l.map (fun k => (k, f k))).map Prod.fst) = l
  | [] => rfl
  | a :: t => by simp [map_fst_keyed f t]

/-- C5 counterexample: for the scenario rows in the order Under 1 year
then 25-34 years, the returned cohort table lists 25-34 years first, not
the first-appearance order the claim states. -/
theorem C5_cohort_order_counterexample :
    (age_by_state scenarioStateRows "New York").table.map Prod.fst
        = ["25-34 years", "Under 1 year"] ∧
    (age_by_state scenarioStateRows "New York").table.map Prod.fst
        ≠ ["Under 1 year", "25-34 years"] :=
  ⟨by decide, by decide⟩

/-- C5 amended: the chart x-range carries the cohorts in stable
first-appearance order, but the returned cohort table lists them in
ascending lexicographic (code point) order of the age-group label, each
paired with its six sums; in the scenario the x-range is Under 1 year then
25-34 years while the table rows are 25-34 years then Under 1 year. -/
theorem C5_cohort_table_sorted_order :
    (∀ (rows : List StateRow) (state : String),
      (age_by_state rows state).xRange = uniqueFirst (cohortLabels rows state) ∧
      (age_by_state rows state).table.map Prod.fst
        = pySortStr (uniqueFirst (cohortLabels rows state)) ∧
      List.Sorted pyLe ((age_by_state rows state).table.map Prod.fst) ∧
      ∀ k figs, (k, figs) ∈ (age_by_state rows state).table →
        figs = cohortSums rows state k) ∧
    ((age_by_state scenarioStateRows "New York").xRange
        = ["Under 1 year", "25-34 years"] ∧
     (age_by_state scenarioStateRows "New York").table
        = [("25-34 years", figs10), ("Under 1 year", ⟨2, 0, 0, 0, 0, 0⟩)]) := by
  constructor
  · intro rows state
    refine ⟨rfl, ?_, ?_, ?_⟩
    · simp only [age_by_state]
      exact map_fst_keyed _ _
    · simp only [age_by_state]
      rw [map_fst_keyed]
      exact List.sorted_insertionSort pyLe _
    · intro k figs hmem
      simp only [age_by_state] at hmem
      obtain ⟨k', hk', heq⟩ := List.mem_map.mp hmem
      have heq' : (k', cohortSums rows state k') = (k, figs) := heq
      injection heq' with e1 e2
      subst e1
      exact e2.symm
  · exact ⟨by decide, by decide⟩

/-- Witness for C5 amended: the 25-34 years row of the scenario table
carries exactly the summed figures of that cohort. -/
theorem C5_cohort_table_sorted_order_witness :
    ("25-34 years", figs10) ∈ (age_by_state scenarioStateRows "New York").table ∧
    figs10 = cohortSums scenarioStateRows "New York" "25-34 years" :=
  ⟨by decide,
    (C5_cohort_table_sorted_order.1 scenarioStateRows "New York").2.2.2
      "25-34 years" figs10 (by decide)⟩

/-- C10: deaths_by_county always returns either a plot value or the one
uniform nonePair value, the two are never equal, every error of the body
maps to nonePair, and in particular the region-not-found, missing
covid_death column and empty filtered geometry failures all yield
nonePair. -/
theorem C10_uniform_failure_shape :
    (∀ (cf : CountyFrame) (geo : List GeoEntry)
       (mapping : List (String × String)) (state : String),
      (∃ c, deaths_by_county cf geo mapping state = DBCResult.plot c) ∨
        deaths_by_county cf geo mapping state = DBCResult.nonePair) ∧
    (∀ c : Choropleth, DBCResult.plot c ≠ DBCResult.nonePair) ∧
    (∀ (cf : CountyFrame) (geo : List GeoEntry)
       (mapping : List (String × String)) (state e : String),
      deathsByCountyBody cf geo mapping state = Except.error e →
      deaths_by_county cf geo mapping state = DBCResult.nonePair) ∧
    (∀ (cf : CountyFrame) (geo : List GeoEntry)
       (mapping : List (String × String)) (state : String),
      resolveCode mapping state = none →
      deaths_by_county cf geo mapping state = DBCResult.nonePair) ∧
    (∀ (cf : CountyFrame) (geo : List GeoEntry)
       (mapping : List (String × String)) (state : String),
      "covid_death" ∉ cf.cols →
      deaths_by_county cf geo mapping state = DBCResult.nonePair) ∧
    (∀ (cf : CountyFrame) (geo : List GeoEntry)
       (mapping : List (String × String))
       (state state_code state_name : String),
      resolveCode mapping state = some (state_code, state_name) →
      geoFilteredOf geo state_code = [] →
      deaths_by_county cf geo mapping state = DBCResult.nonePair) := by
  refine ⟨?_, ?_, ?_, ?_, ?_, ?_⟩
  · intro cf geo mapping state
    unfold deaths_by_county
    cases hb : deathsByCountyBody cf geo mapping state with
    | ok c => exact Or.inl ⟨c, rfl⟩
    | error e => exact Or.inr rfl
  · intro c h
    exact DBCResult.noConfusion h
  · intro cf geo mapping state e hb
    unfold deaths_by_county
    rw [hb]
  · intro cf geo mapping state hres
    unfold deaths_by_county deathsByCountyBody
    rw [hres]
  · intro cf geo mapping state hcol
    unfold deaths_by_county
    cases hb : deathsByCountyBody cf geo mapping state with
    | ok c =>
      exfalso
      obtain ⟨code, nm, -, -, -, -, -, hcovid, -⟩ := body_ok_cases hb
      exact hcol hcovid
    | error e => rfl
  · intro cf geo mapping state state_code state_name hres hgeo
    unfold deaths_by_county
    cases hb : deathsByCountyBody cf geo mapping state with
    | ok c =>
      exfalso
      obtain ⟨code', nm', hres', hgeo', -, -, -, -, -⟩ := body_ok_cases hb
      rw [hres] at hres'
      injection hres' with hp
      injection hp with e1 e2
      subst e1
      exact hgeo' hgeo
    | error e => rfl

/-- Witness for C10: the unmapped name Nowhere resolves to no code and the
concrete invocation returns nonePair. -/
theorem C10_uniform_failure_shape_witness :
    resolveCode scenarioMap "Nowhere" = none ∧
    deaths_by_county scenarioCF scenarioGeo scenarioMap "Nowhere"
      = DBCResult.nonePair :=
  ⟨by decide,
    C10_uniform_failure_shape.2.2.2.1 scenarioCF scenarioGeo scenarioMap
      "Nowhere" (by decide)⟩

end Bovid
